import Mathlib

/-!
Verification development for the NRDS grocery-delivery backend.

The definitions below are a shallow embedding of the order / cart / stock
core of the repository: `src/routes/orders.js`, `src/routes/cart.js`,
`src/routes/admin.js`, the product schema `src/models/Product.js`, the
settings schema `src/models/Setting.js` and the order schema.

Modelling conventions:
  * JS numbers are modelled as `Int` (all values the claims exercise are
    integral); a nullable numeric field (such as a tracked stock counter,
    which Mongoose stores as `null` for "untracked") is `Option Int`.
  * `Number(x)` applied to a possibly-null field is `jsNum` (`Number(null) = 0`).
  * Mongo documents are records; the product collection is a `List Product`
    and `product.save()` is `saveProduct` (replace-by-id).
  * The data store may raise a `VersionError` on save; this nondeterminism is
    modelled by a `conflicts : Nat` oracle counting how many consecutive save
    attempts fail before one succeeds.
  * The HMAC-SHA256 primitive of the `crypto` module is external to the
    repository; it enters the embedding as an opaque function parameter
    `hmac : String → String → String` (secret, body ↦ hex digest).
-/

namespace NRDS

/-- JS `Number(x)` on a nullable numeric field: `Number(null) = 0`. -/
def jsNum : Option Int → Int
| none => 0
| some n => n

/-- A product variant (`variantSchema` in `src/models/Product.js`):
`stock` defaults to `null`, meaning untracked. -/
structure Variant where
  vid : Nat
  label : String
  price : Int
  stock : Option Int
  isActive : Bool
deriving Repr, DecidableEq

/-- A product (`productSchema` in `src/models/Product.js`), restricted to the
fields the order/cart/stock core reads. -/
structure Product where
  pid : Nat
  name : String
  price : Int
  stock : Option Int
  variants : List Variant
deriving Repr, DecidableEq

/-- `Product.findById` over the product collection. -/
def findProduct (db : List Product) (pid : Nat) : Option Product :=
  db.find? (fun p => p.pid == pid)

/-- `product.save()`: replace the document with the same id. -/
def saveProduct (db : List Product) (p : Product) : List Product :=
  db.map (fun q => if q.pid == p.pid then p else q)

/-- The base-product stock stored for `pid`, if the product exists. -/
def baseStockOf (db : List Product) (pid : Nat) : Option (Option Int) :=
  (findProduct db pid).map (fun p => p.stock)

/-- Replace the stock of variant `vid` inside product `p`. -/
def setVariantStock (p : Product) (vid : Nat) (s : Option Int) : Product :=
  { p with variants := p.variants.map (fun w => if w.vid == vid then { w with stock := s } else w) }

/-- Result of `getVariantInfo` (defined identically in `orders.js` and `cart.js`). -/
structure VariantInfo where
  variant : Option Variant
  unitPrice : Int
  label : String
deriving Repr, DecidableEq

/-- `getVariantInfo(product, variantId)`: resolve a requested variant id; a
missing, unknown or inactive variant falls back to the base product price. -/
def getVariantInfo (p : Product) (variantId : Option Nat) : VariantInfo :=
  match variantId with
  | none => ⟨none, p.price, ""⟩
  | some vid =>
    match p.variants.find? (fun v => v.vid == vid) with
    | none => ⟨none, p.price, ""⟩
    | some v => if v.isActive = false then ⟨none, p.price, ""⟩ else ⟨some v, v.price, v.label⟩

/-- The `availableStock` IIFE of `orders.js` / `cart.js`: a resolved variant
with non-null stock is authoritative, otherwise `Number(product.stock)`. -/
def availableStock (p : Product) (vi : VariantInfo) : Int :=
  match vi.variant with
  | some v =>
    match v.stock with
    | some s => s
    | none => jsNum p.stock
  | none => jsNum p.stock

/-- The stock decrement applied per line at order creation
(`orders.js`, `POST /`, lines 375-379): a resolved variant with non-null
stock is decremented, otherwise the base product stock is. -/
def decrementForLine (p : Product) (vi : VariantInfo) (qty : Int) : Product :=
  match vi.variant with
  | some v =>
    match v.stock with
    | some s => setVariantStock p v.vid (some (s - qty))
    | none => { p with stock := some (jsNum p.stock - qty) }
  | none => { p with stock := some (jsNum p.stock - qty) }

/-- An immutable order line (`orderItemSchema`). -/
structure OrderItem where
  product : Nat
  variantId : Option Nat
  variantLabel : String
  name : String
  price : Int
  quantity : Int
  subtotal : Int
deriving Repr, DecidableEq

/-- Shipping address restricted to the two fields `POST /` validates. -/
structure Address where
  name : String
  street : String
deriving Repr, DecidableEq

/-- An order document (`orderSchema`), restricted to the paths the core
reads and writes. Status strings are stored raw, legacy aliases included.
The `POST /` route additionally passes `deliveryCharge` and
`freeDeliveryThreshold` to the Order constructor, but `orderSchema`
declares neither path and Mongoose schemas are strict by default, so both
are discarded before commit — the document carries only the paths below,
with the delivery charge folded irreversibly into `totalAmount`. -/
structure Order where
  userId : Nat
  orderNumber : String
  items : List OrderItem
  totalAmount : Int
  paymentMethod : String
  shippingAddress : Address
  paymentStatus : String
  status : String
  paymentId : Option String
  paymentGatewayOrderId : Option String
  paymentSignature : Option String
  hiddenForUser : Bool
deriving Repr, DecidableEq

/-- Sum of the line subtotals of an order (the Σ of the invariant in §8). -/
def sumSubtotals : List OrderItem → Int
| [] => 0
| it :: rest => it.subtotal + sumSubtotals rest

/-- A delivery slab (`deliverySlabs` entries in `src/models/Setting.js`);
`maxDistance` is never read by the charge computation and is omitted. -/
structure Slab where
  minDistance : Int
  charge : Int
deriving Repr, DecidableEq

/-- Delivery-related settings (`settingSchema`). -/
structure Settings where
  freeDeliveryThreshold : Int
  freeDistanceLimit : Int
  deliveryChargePerKm : Int
  deliverySlabs : List Slab
deriving Repr, DecidableEq

/-- `calculateDynamicSlabCharge(dist, slabs)` (`orders.js` lines 20-31):
sort ascending by `minDistance` (JS sort is stable; so is `mergeSort`),
keep the slabs whose `minDistance` the distance reaches, take the last. -/
def calculateDynamicSlabCharge (dist : Int) (slabs : List Slab) : Int :=
  if slabs.isEmpty then 0
  else
    let sortedSlabs := slabs.mergeSort (fun a b => a.minDistance ≤ b.minDistance)
    let eligibleSlabs := sortedSlabs.filter (fun s => s.minDistance ≤ dist)
    match eligibleSlabs.getLast? with
    | some s => s.charge
    | none => 0

/-- The delivery-charge computation of `POST /` (`orders.js` lines 383-414):
no settings document defaults the charge to 0; below the free-delivery
threshold and beyond the free-distance limit, configured slabs take
precedence, then a caller-supplied manual charge, then `distance × perKm`. -/
def computeDeliveryCharge (calculatedTotal : Int) (distance : Int)
    (settings : Option Settings) (reqDeliveryCharge : Option Int) : Int :=
  match settings with
  | none => 0
  | some s =>
    if calculatedTotal < s.freeDeliveryThreshold then
      if distance ≤ s.freeDistanceLimit then 0
      else if s.deliverySlabs.isEmpty = false then calculateDynamicSlabCharge distance s.deliverySlabs
      else
        match reqDeliveryCharge with
        | some c => c
        | none => distance * s.deliveryChargePerKm
    else 0

/-- A requested order line from the `POST /` body. -/
structure ReqItem where
  productId : Option Nat
  variantId : Option Nat
  quantity : Int
deriving Repr, DecidableEq

/-- Per-line failures of the order-creation loop. -/
inductive LineErr
| missingProductId
| productNotFound (pid : Nat)
| insufficientStock (name : String) (label : String)
deriving Repr, DecidableEq

/-- One iteration of the reservation loop of `POST /` (`orders.js` lines
332-381): fetch the product, resolve the variant, check availability, then
decrement and save immediately. Returns the line subtotal, the snapshotted
order line and the updated collection. -/
def processLine (db : List Product) (it : ReqItem) : Except LineErr (Int × OrderItem × List Product) :=
  match it.productId with
  | none => .error .missingProductId
  | some pid =>
    match findProduct db pid with
    | none => .error (.productNotFound pid)
    | some p =>
      let vi := getVariantInfo p it.variantId
      let avail := availableStock p vi
      if avail < it.quantity then .error (.insufficientStock p.name vi.label)
      else
        let subtotal := vi.unitPrice * it.quantity
        let oitem : OrderItem :=
          ⟨p.pid, vi.variant.map (fun v => v.vid), vi.label, p.name, vi.unitPrice, it.quantity, subtotal⟩
        .ok (subtotal, oitem, saveProduct db (decrementForLine p vi it.quantity))

/-- Result of the whole reservation loop: on a line failure the collection
already holds the decrements of the preceding lines (no rollback). -/
inductive LinesResult
| ok (total : Int) (orderItems : List OrderItem) (db : List Product)
| err (e : LineErr) (db : List Product)
deriving Repr, DecidableEq

/-- The sequential per-line reservation loop of `POST /`. -/
def processLines : List ReqItem → List Product → Int → List OrderItem → LinesResult
| [], db, total, acc => .ok total acc db
| it :: rest, db, total, acc =>
  match processLine db it with
  | .error e => .err e db
  | .ok (sub, oitem, db') => processLines rest db' (total + sub) (acc ++ [oitem])

/-- The `POST /` request body (fields the route reads). -/
structure CreateOrderReq where
  items : List ReqItem
  totalAmount : Int
  paymentMethod : String
  shippingAddress : Option Address
  distance : Int
  deliveryCharge : Option Int
deriving Repr, DecidableEq

/-- Outcome of `POST /` (`orders.js` lines 303-458). -/
inductive CreateOrderResult
| ok (o : Order) (db : List Product)
| badRequest (msg : String) (db : List Product)
| lineFailure (e : LineErr) (db : List Product)
deriving Repr, DecidableEq

/-- `POST /` (order creation). Validations, then the reservation loop, then
the delivery charge, then the order document; the client-supplied
`totalAmount` of the body is never read. `orderNumber` abstracts the
time-and-randomness based `generateOrderNumber()`. The route also passes
`deliveryCharge` and `freeDeliveryThreshold` to the constructor, but
`orderSchema` declares neither path, so strict mode drops them from the
document: only `finalTotal` (charge included) is committed. -/
def createOrder (userId : Nat) (req : CreateOrderReq) (db : List Product)
    (settings : Option Settings) (orderNumber : String) : CreateOrderResult :=
  if req.items.isEmpty then .badRequest "Order must contain at least one item" db
  else if (req.paymentMethod == "cod" || req.paymentMethod == "razorpay") = false then
    .badRequest "Valid payment method is required" db
  else
    match req.shippingAddress with
    | none => .badRequest "Complete shipping address is required" db
    | some addr =>
      if addr.name = "" ∨ addr.street = "" then .badRequest "Complete shipping address is required" db
      else
        match processLines req.items db 0 [] with
        | .err e db' => .lineFailure e db'
        | .ok calculatedTotal orderItems db' =>
          let deliveryCharge := computeDeliveryCharge calculatedTotal req.distance settings req.deliveryCharge
          let finalTotal := calculatedTotal + deliveryCharge
          let initialStatus := if req.paymentMethod == "razorpay" then "PAYMENT_PENDING" else "CREATED"
          .ok ⟨userId, orderNumber, orderItems, finalTotal, req.paymentMethod, addr,
               "pending", initialStatus, none, none, none, false⟩ db'

/-- The stock restoration applied per line by the user cancellation routes
(`orders.js`, `PUT /:id/cancel` lines 523-539, and `POST /razorpay/cancel`):
a missing product is skipped; a line with a `variantId` increments the
variant stock only when the variant exists with non-null stock (otherwise
the document is saved unchanged); a base line increments the product stock. -/
def restoreLine (db : List Product) (it : OrderItem) : List Product :=
  match findProduct db it.product with
  | none => db
  | some p =>
    match it.variantId with
    | some vid =>
      match p.variants.find? (fun v => v.vid == vid) with
      | some v =>
        match v.stock with
        | some s => saveProduct db (setVariantStock p vid (some (s + it.quantity)))
        | none => saveProduct db p
      | none => saveProduct db p
    | none => saveProduct db { p with stock := some (jsNum p.stock + it.quantity) }

/-- `PUT /:id/cancel` (`orders.js` lines 505-556): only pre-confirmation
states may be cancelled; stock is restored per line, then the status is
persisted as CANCELLED. -/
def cancelOrder (o : Order) (db : List Product) : Except String (Order × List Product) :=
  if o.status ∈ ["CREATED", "PAYMENT_PENDING", "pending"] then
    .ok ({ o with status := "CANCELLED" }, o.items.foldl restoreLine db)
  else .error "Only orders before confirmation can be cancelled"

/-- The `normalize` map of the admin status-update route (`admin.js`). -/
def normalizeStatus (s : String) : String :=
  if s = "pending" then "CREATED"
  else if s = "confirmed" then "ADMIN_CONFIRMED"
  else if s = "processing" then "ADMIN_CONFIRMED"
  else if s = "shipped" then "SHIPPED"
  else if s = "delivered" then "DELIVERED"
  else if s = "cancelled" then "CANCELLED"
  else s

/-- The `allowedNext` adjacency table of the admin status-update route;
`allowedNext[s] || []` for any state outside the table. -/
def allowedNext (s : String) : List String :=
  if s = "CREATED" then ["PAYMENT_PENDING", "PAID", "ADMIN_CONFIRMED", "CANCELLED"]
  else if s = "PAYMENT_PENDING" then ["PAID", "CANCELLED"]
  else if s = "PAID" then ["ADMIN_CONFIRMED", "CANCELLED"]
  else if s = "ADMIN_CONFIRMED" then ["SHIPPED", "CANCELLED"]
  else if s = "SHIPPED" then ["DELIVERED"]
  else []

/-- The list of accepted status strings of the admin route. -/
def validStatuses : List String :=
  ["CREATED", "PAYMENT_PENDING", "PAID", "ADMIN_CONFIRMED", "SHIPPED", "DELIVERED", "CANCELLED",
   "pending", "confirmed", "processing", "shipped", "delivered", "cancelled"]

/-- `PUT /orders/:id` of `admin.js` (lines 416-507): validate the requested
status, normalize both sides, consult the adjacency table (an equal
normalized status is an idempotent no-op), then persist the raw requested
status. The route performs no Product operation whatsoever, so the product
collection is returned unchanged. -/
def adminUpdateOrderStatus (o : Order) (db : List Product) (status : String) :
    Except String (Order × List Product) :=
  if status ∉ validStatuses then .error "Valid status is required"
  else
    let src := normalizeStatus o.status
    let dst := normalizeStatus status
    if src ≠ dst ∧ dst ∉ allowedNext src then
      .error "Invalid status transition"
    else .ok ({ o with status := status }, db)

/-- One line of the re-reservation loop of `POST /razorpay/order`
(`orders.js` lines 170-192), run when the order is re-paid after a
cancellation: a missing product is skipped (`continue`); a tracked variant
or base stock is checked and decremented; an insufficient line aborts the
request, leaving the collection as mutated so far. -/
def reDeductLine (db : List Product) (it : OrderItem) :
    Except (String × List Product) (List Product) :=
  match findProduct db it.product with
  | none => .ok db
  | some p =>
    match it.variantId with
    | some vid =>
      match p.variants.find? (fun v => v.vid == vid) with
      | some v =>
        match v.stock with
        | some s =>
          if s < it.quantity then
            .error ("Insufficient stock for " ++ p.name ++ " (" ++ it.variantLabel ++ ")", db)
          else .ok (saveProduct db (setVariantStock p vid (some (s - it.quantity))))
        | none => .ok (saveProduct db p)
      | none => .ok (saveProduct db p)
    | none =>
      match p.stock with
      | some s =>
        if s < it.quantity then .error ("Insufficient stock for " ++ p.name, db)
        else .ok (saveProduct db { p with stock := some (s - it.quantity) })
      | none => .ok (saveProduct db p)

/-- The whole re-reservation loop of `POST /razorpay/order`. -/
def reDeductLines : List OrderItem → List Product → Except (String × List Product) (List Product)
| [], db => .ok db
| it :: rest, db =>
  match reDeductLine db it with
  | .error e => .error e
  | .ok db' => reDeductLines rest db'

/-- Outcome of `POST /razorpay/order`: a `badRequest` carries the stored
order untouched (the route returns before any order write). -/
inductive RPOrderResult
| ok (o : Order) (db : List Product)
| badRequest (msg : String) (o : Order) (db : List Product)
deriving Repr, DecidableEq

/-- `POST /razorpay/order` (`orders.js` lines 149-223): only unpaid or
cancelled razorpay orders qualify; a cancelled order is first re-reserved
per line; then the gateway order id (abstracted as `rpOrderId`, the value
the external gateway returns) is recorded and the order moves to
PAYMENT_PENDING with payment status pending. -/
def razorpayOrder (o : Order) (db : List Product) (rpOrderId : String) : RPOrderResult :=
  if o.paymentMethod ≠ "razorpay" then .badRequest "Order is not a Razorpay order" o db
  else if o.status ∉ ["PAYMENT_PENDING", "CREATED", "pending", "CANCELLED", "cancelled"] then
    .badRequest "Razorpay order can only be created for unpaid or cancelled orders" o db
  else
    let step :=
      if o.status ∈ ["CANCELLED", "cancelled"] then reDeductLines o.items db
      else .ok db
    match step with
    | .error (msg, db') => .badRequest msg o db'
    | .ok db' =>
      .ok { o with paymentGatewayOrderId := some rpOrderId,
                   status := "PAYMENT_PENDING", paymentStatus := "pending" } db'

/-- The fields `POST /razorpay/verify` requires in its body. -/
structure VerifyReq where
  razorpayOrderId : String
  razorpayPaymentId : String
  razorpaySignature : String
deriving Repr, DecidableEq

/-- A cart line (`cart.js`). -/
structure CartItem where
  product : Nat
  variantId : Option Nat
  variantLabel : String
  quantity : Int
  price : Int
deriving Repr, DecidableEq

/-- A cart document. -/
structure Cart where
  items : List CartItem
  totalAmount : Int
deriving Repr, DecidableEq

/-- `recomputeTotal(cart)` of `cart.js`: the total is always re-derived as
Σ price × quantity over the lines. -/
def recomputeTotal (c : Cart) : Cart :=
  { c with totalAmount := c.items.foldl (fun sum it => sum + it.price * it.quantity) 0 }

/-- Outcome of `POST /razorpay/verify` (`orders.js` lines 226-278). -/
inductive VerifyResult
| badRequest (o : Order) (cart : Cart)
| invalidSignature (o : Order) (cart : Cart)
| ok (o : Order) (cart : Cart)
deriving Repr, DecidableEq

/-- `POST /razorpay/verify`: require the four fields; recompute the expected
signature as HMAC-SHA256 over `gatewayOrderId|paymentId` with the
server-held secret; a mismatch persists payment status failed and nothing
else; a match persists PAID with the gateway correlation fields and clears
the cart. `hmac` is the external `crypto.createHmac` primitive. -/
def verifyPayment (hmac : String → String → String) (secret : String)
    (o : Order) (cart : Cart) (req : VerifyReq) : VerifyResult :=
  if req.razorpayOrderId = "" ∨ req.razorpayPaymentId = "" ∨ req.razorpaySignature = "" then
    .badRequest o cart
  else if o.paymentMethod ≠ "razorpay" then .badRequest o cart
  else
    let body := req.razorpayOrderId ++ "|" ++ req.razorpayPaymentId
    let expected := hmac secret body
    if expected ≠ req.razorpaySignature then
      .invalidSignature { o with paymentStatus := "failed" } cart
    else
      .ok { o with paymentStatus := "paid", status := "PAID",
                   paymentId := some req.razorpayPaymentId,
                   paymentGatewayOrderId := some req.razorpayOrderId,
                   paymentSignature := some req.razorpaySignature }
         { cart with items := [], totalAmount := 0 }

/-- Update the first element satisfying `p` (the JS `findIndex` then
index-mutation idiom of `cart.js`). -/
def updateFirst (p : α → Bool) (f : α → α) : List α → List α
| [] => []
| x :: xs => if p x then f x :: xs else x :: updateFirst p f xs

/-- Outcome of a cart route. `saveConflict` is the definitive failure the
caller sees once a `VersionError` on `cart.save()` is no longer retried
(the catch-all handler turns it into a 500 response). -/
inductive CartResult
| ok (c : Cart)
| badRequest (msg : String)
| notFound (msg : String)
| insufficient (msg : String)
| saveConflict
deriving Repr, DecidableEq

/-- The line-matching predicate of `cart.js`: same product and same
(possibly null) variant key. -/
def sameCartLine (productId : Nat) (vkey : Option Nat) (it : CartItem) : Bool :=
  it.product == productId && it.variantId == vkey

/-- The pure mutation of `POST /add` (`cart.js` lines 72-143): resolve the
variant, check the requested quantity against current availability, then
either bump the existing matching line (re-checking the summed quantity)
or push a new line, and recompute the total. -/
def cartAddLogic (db : List Product) (cart : Cart) (productId : Nat) (qty : Int)
    (variantId : Option Nat) : CartResult :=
  match findProduct db productId with
  | none => .notFound "Product not found"
  | some p =>
    let vi := getVariantInfo p variantId
    let avail := availableStock p vi
    if avail < qty then .insufficient "Insufficient stock available"
    else
      let vkey := vi.variant.map (fun v => v.vid)
      match cart.items.find? (sameCartLine productId vkey) with
      | some old =>
        let newQty := old.quantity + qty
        if avail < newQty then .insufficient "Cannot add more items than available stock"
        else
          let items2 := updateFirst (sameCartLine productId vkey)
            (fun it => { it with quantity := newQty }) cart.items
          .ok (recomputeTotal { cart with items := items2 })
      | none =>
        .ok (recomputeTotal
          { cart with items := cart.items ++ [⟨productId, vkey, vi.label, qty, vi.unitPrice⟩] })

/-- `POST /add` with its single `cart.save()`: the route has no retry loop,
so the first `VersionError` (a positive `conflicts` oracle) surfaces as the
definitive failure. -/
def cartAdd (db : List Product) (cart : Cart) (productId : Nat) (qty : Int)
    (variantId : Option Nat) (conflicts : Nat) : CartResult :=
  match cartAddLogic db cart productId qty variantId with
  | .ok c => if conflicts == 0 then .ok c else .saveConflict
  | r => r

/-- The body of one attempt of the `PUT /update` retry loop (`cart.js`
lines 186-220): locate the matching line, splice it out when the quantity
is 0, otherwise overwrite the quantity, and recompute the total. -/
def cartUpdateLogic (cart : Cart) (productId : Nat) (qty : Int) (vkey : Option Nat) : CartResult :=
  match cart.items.find? (sameCartLine productId vkey) with
  | none => .notFound "Item not found in cart"
  | some _ =>
    if qty == 0 then
      .ok (recomputeTotal { cart with items := cart.items.eraseP (sameCartLine productId vkey) })
    else
      let items2 := updateFirst (sameCartLine productId vkey)
        (fun it => { it with quantity := qty }) cart.items
      .ok (recomputeTotal { cart with items := items2 })

/-- The `retries = 3; while (retries > 0)` loop of `PUT /update`: an attempt
whose save hits a `VersionError` is retried while `retries > 1`; the last
allowed attempt rethrows, which the caller sees as a definitive failure.
The re-read cart is the stored one; the concurrent writer is modelled as
affecting only the document version (the `conflicts` oracle). -/
def cartUpdateLoop (cart : Cart) (productId : Nat) (qty : Int) (vkey : Option Nat) :
    Nat → Nat → CartResult
| 0, _ => .saveConflict
| Nat.succ r, conflicts =>
  match cartUpdateLogic cart productId qty vkey with
  | .ok c =>
    match conflicts with
    | 0 => .ok c
    | Nat.succ c' => if 0 < r then cartUpdateLoop cart productId qty vkey r c' else .saveConflict
  | other => other

/-- `PUT /update` (`cart.js` lines 146-225): validate the quantity, check a
positive quantity against current availability, then run the retry loop
with a budget of 3 attempts. -/
def cartUpdate (db : List Product) (cart : Cart) (productId : Nat) (qty : Int)
    (variantId : Option Nat) (conflicts : Nat) : CartResult :=
  if qty < 0 then .badRequest "Valid product ID and quantity are required"
  else if 0 < qty then
    match findProduct db productId with
    | none => .notFound "Product not found"
    | some p =>
      let vi := getVariantInfo p variantId
      let avail := availableStock p vi
      if avail < qty then .insufficient "Insufficient stock available"
      else cartUpdateLoop cart productId qty variantId 3 conflicts
  else cartUpdateLoop cart productId qty variantId 3 conflicts

/-- The body of one attempt of `DELETE /remove/:productId` (`cart.js` lines
228-277), for a request without the optional `cartItemId` query parameter
(that branch is then inert): drop every line matching the product/variant
pair and recompute the total. -/
def cartRemoveLogic (cart : Cart) (productId : Nat) (vkey : Option Nat) : Cart :=
  recomputeTotal { cart with items := cart.items.filter (fun it => !(sameCartLine productId vkey it)) }

/-- The `retries = 3` loop of `DELETE /remove/:productId`, with the same
retry semantics as `PUT /update`. -/
def cartRemoveLoop (cart : Cart) (productId : Nat) (vkey : Option Nat) :
    Nat → Nat → CartResult
| 0, _ => .saveConflict
| Nat.succ r, conflicts =>
  match conflicts with
  | 0 => .ok (cartRemoveLogic cart productId vkey)
  | Nat.succ c' => if 0 < r then cartRemoveLoop cart productId vkey r c' else .saveConflict

/-- `DELETE /remove/:productId`: the retry loop entered with a budget of 3. -/
def cartRemove (cart : Cart) (productId : Nat) (vkey : Option Nat) (conflicts : Nat) : CartResult :=
  cartRemoveLoop cart productId vkey 3 conflicts

deriving instance DecidableEq for Except

/-- Saving a modified copy of a found document makes the copy the one found. -/
theorem findProduct_saveProduct (db : List Product) (pid : Nat) (p p' : Product)
    (hfind : findProduct db pid = some p) (hp : p'.pid = p.pid) :
    findProduct (saveProduct db p') pid = some p' := by
  have hppid : p.pid = pid := by
    have hfind0 : List.find? (fun r : Product => r.pid == pid) db = some p := hfind
    have h0 := List.find?_some hfind0
    simpa using h0
  induction db with
  | nil => simp [findProduct] at hfind
  | cons q rest ih =>
    by_cases hq : q.pid = pid
    · have hpq : q = p := by
        have hhead : findProduct (q :: rest) pid = some q := by
          show List.find? (fun r => r.pid == pid) (q :: rest) = some q
          exact List.find?_cons_of_pos _ (by simpa using hq)
        rw [hhead] at hfind
        exact Option.some.inj hfind
      have hqp' : q.pid = p'.pid := by rw [hp, ← hpq]
      have hsave : saveProduct (q :: rest) p' = p' :: saveProduct rest p' := by
        simp [saveProduct, hqp']
      rw [hsave]
      have hp'pid : p'.pid = pid := by rw [hp, hppid]
      show List.find? (fun r => r.pid == pid) (p' :: saveProduct rest p') = some p'
      exact List.find?_cons_of_pos _ (by simpa using hp'pid)
    · have hfind2 : findProduct rest pid = some p := by
        have hstep : List.find? (fun r : Product => r.pid == pid) (q :: rest) =
            List.find? (fun r : Product => r.pid == pid) rest :=
          List.find?_cons_of_neg _ (by simpa using hq)
        show List.find? (fun r : Product => r.pid == pid) rest = some p
        rw [← hstep]
        exact hfind
      have hqp' : ¬(q.pid = p'.pid) := by
        rw [hp, hppid]
        exact hq
      have hsave : saveProduct (q :: rest) p' = q :: saveProduct rest p' := by
        simp [saveProduct, hqp']
      rw [hsave]
      have hstep : List.find? (fun r : Product => r.pid == pid) (q :: saveProduct rest p') =
          List.find? (fun r : Product => r.pid == pid) (saveProduct rest p') :=
        List.find?_cons_of_neg _ (by simpa using hq)
      show List.find? (fun r : Product => r.pid == pid) (q :: saveProduct rest p') = some p'
      rw [hstep]
      exact ih hfind2

/-- Σ subtotal distributes over list append. -/
theorem sumSubtotals_append (xs ys : List OrderItem) :
    sumSubtotals (xs ++ ys) = sumSubtotals xs + sumSubtotals ys := by
  induction xs with
  | nil => simp [sumSubtotals]
  | cons x xs ih =>
    simp only [List.cons_append, sumSubtotals, List.append_eq, ih]
    ring

/-- A successful reservation line records exactly the subtotal it returns. -/
theorem processLine_subtotal (db : List Product) (it : ReqItem) (sub : Int)
    (oitem : OrderItem) (db2 : List Product)
    (h : processLine db it = .ok (sub, oitem, db2)) : oitem.subtotal = sub := by
  unfold processLine at h
  dsimp only at h
  split at h
  · exact absurd h (by simp)
  · split at h
    · exact absurd h (by simp)
    · split at h
      · exact absurd h (by simp)
      · simp only [Except.ok.injEq, Prod.mk.injEq] at h
        obtain ⟨h1, h2, h3⟩ := h
        rw [← h2, ← h1]

/-- The running total of the reservation loop equals the sum of the
subtotals of the accumulated order lines. -/
theorem processLines_total : ∀ (items : List ReqItem) (db : List Product) (t : Int)
    (acc : List OrderItem) (t' : Int) (outItems : List OrderItem) (db' : List Product),
    processLines items db t acc = .ok t' outItems db' →
    t' + sumSubtotals acc = t + sumSubtotals outItems := by
  intro items
  induction items with
  | nil =>
    intro db t acc t' outItems db' h
    simp only [processLines, LinesResult.ok.injEq] at h
    obtain ⟨h1, h2, h3⟩ := h
    rw [h1, h2]
  | cons it rest ih =>
    intro db t acc t' outItems db' h
    simp only [processLines] at h
    cases hpl : processLine db it with
    | error e =>
      rw [hpl] at h
      exact absurd h (by simp)
    | ok v =>
      obtain ⟨sub, oitem, db2⟩ := v
      rw [hpl] at h
      have hsub : oitem.subtotal = sub := processLine_subtotal db it sub oitem db2 hpl
      have hih := ih db2 (t + sub) (acc ++ [oitem]) t' outItems db' h
      rw [sumSubtotals_append] at hih
      simp only [sumSubtotals, hsub] at hih
      omega

/-- A failing reservation loop stops at the first bad line: the collection
it returns is exactly the one left after the preceding lines succeeded. -/
theorem processLines_err_spec : ∀ (items : List ReqItem) (db : List Product) (t : Int)
    (acc : List OrderItem) (e : LineErr) (db' : List Product),
    processLines items db t acc = .err e db' →
    ∃ (k : Nat) (hk : k < items.length) (t' : Int) (acc' : List OrderItem),
      processLines (items.take k) db t acc = .ok t' acc' db' ∧
      processLine db' (items.get ⟨k, hk⟩) = .error e := by
  intro items
  induction items with
  | nil =>
    intro db t acc e db' h
    exact absurd h (by simp [processLines])
  | cons it rest ih =>
    intro db t acc e db' h
    simp only [processLines] at h
    cases hpl : processLine db it with
    | error e0 =>
      rw [hpl] at h
      simp only [LinesResult.err.injEq] at h
      obtain ⟨h1, h2⟩ := h
      subst h1
      subst h2
      exact ⟨0, by simp, t, acc, by simp [processLines], by simpa using hpl⟩
    | ok v =>
      obtain ⟨sub, oitem, db2⟩ := v
      rw [hpl] at h
      obtain ⟨k, hk, t2, acc2, hok, herr⟩ := ih db2 (t + sub) (acc ++ [oitem]) e db' h
      refine ⟨k + 1, by simpa using Nat.succ_lt_succ hk, t2, acc2, ?_, ?_⟩
      · simp only [List.take_succ_cons, processLines, hpl]
        exact hok
      · simpa using herr

/-- In a `Pairwise R` list, every element is the last one or relates to it. -/
theorem pairwise_rel_getLast {α : Type} {R : α → α → Prop} :
    ∀ (l : List α), l.Pairwise R → ∀ a ∈ l, ∀ b, l.getLast? = some b → a = b ∨ R a b := by
  intro l
  induction l with
  | nil =>
    intro _ a ha
    exact absurd ha (by simp)
  | cons x xs ih =>
    intro hp a ha b hb
    cases xs with
    | nil =>
      simp only [List.getLast?_singleton, Option.some.injEq] at hb
      simp only [List.mem_singleton] at ha
      exact Or.inl (ha.trans hb)
    | cons y ys =>
      have hb' : (y :: ys).getLast? = some b := by
        simpa [List.getLast?_cons_cons] using hb
      have hmemb : b ∈ y :: ys := List.mem_of_getLast?_eq_some hb'
      rcases List.mem_cons.mp ha with hax | hatail
      · rw [hax]
        exact Or.inr ((List.pairwise_cons.mp hp).1 b hmemb)
      · exact ih (List.pairwise_cons.mp hp).2 a hatail b hb'

/-- A sample razorpay order with one base-product line of quantity 2. -/
def sOrder : Order :=
  ⟨9, "ORD-2", [⟨1, none, "", "Rice", 50, 2, 100⟩], 100, "razorpay", ⟨"N", "S"⟩,
   "pending", "PAYMENT_PENDING", none, none, none, false⟩

/-- A sample product collection: product 1 with base stock 3. -/
def sDb : List Product := [⟨1, "Rice", 50, some 3, []⟩]

/-- A sample cart. -/
def sCart : Cart := ⟨[⟨1, none, "", 2, 50⟩], 100⟩

/-- A concrete stand-in for the external HMAC primitive, used by witnesses. -/
def sHmac : String → String → String := fun secret body => secret ++ "#" ++ body

/-- Claim C10: the client-supplied `totalAmount` field of a createOrder
request body is never read — two requests differing only in that field
produce identical results (identical stored orders and stock writes). -/
theorem c10_client_total_ignored (userId : Nat) (req : CreateOrderReq) (t : Int)
    (db : List Product) (settings : Option Settings) (orderNumber : String) :
    createOrder userId { req with totalAmount := t } db settings orderNumber =
      createOrder userId req db settings orderNumber := by
  cases req
  rfl

/-- Claim C5: a verifyPayment call whose submitted signature differs from the
HMAC-SHA256 of gatewayOrderId|paymentId under the server secret sets the
payment status to failed, leaves the lifecycle status unchanged, and does
not clear the cart. -/
theorem c5_invalid_signature_fails_closed (hmac : String → String → String) (secret : String)
    (o : Order) (cart : Cart) (req : VerifyReq)
    (h1 : req.razorpayOrderId ≠ "") (h2 : req.razorpayPaymentId ≠ "")
    (h3 : req.razorpaySignature ≠ "") (hm : o.paymentMethod = "razorpay")
    (hsig : hmac secret (req.razorpayOrderId ++ "|" ++ req.razorpayPaymentId) ≠ req.razorpaySignature) :
    verifyPayment hmac secret o cart req =
      .invalidSignature { o with paymentStatus := "failed" } cart ∧
    ({ o with paymentStatus := "failed" } : Order).status = o.status ∧
    ({ o with paymentStatus := "failed" } : Order).paymentStatus = "failed" := by
  refine ⟨?_, rfl, rfl⟩
  simp [verifyPayment, h1, h2, h3, hm, hsig]

/-- Witness for C5: a concrete tampered signature on the sample order. -/
theorem c5_witness :
    verifyPayment sHmac "sec" sOrder sCart ⟨"g1", "p1", "bad"⟩ =
      .invalidSignature { sOrder with paymentStatus := "failed" } sCart ∧
    ({ sOrder with paymentStatus := "failed" } : Order).status = sOrder.status ∧
    ({ sOrder with paymentStatus := "failed" } : Order).paymentStatus = "failed" :=
  c5_invalid_signature_fails_closed sHmac "sec" sOrder sCart ⟨"g1", "p1", "bad"⟩
    (by decide) (by decide) (by decide) rfl (by decide)

/-- Claim C1 (amended): a user-initiated cancellation restores stock line by
line — for a base-product line the product counter grows by the line
quantity — before the order is persisted as CANCELLED; the admin status
update to CANCELLED performs no product write at all. -/
theorem c1_cancellation_stock_release :
    (∀ (o : Order) (db : List Product) (o' : Order) (db' : List Product),
      cancelOrder o db = .ok (o', db') →
      o'.status = "CANCELLED" ∧ o'.items = o.items ∧ db' = o.items.foldl restoreLine db) ∧
    (∀ (db : List Product) (it : OrderItem) (p : Product),
      it.variantId = none → findProduct db it.product = some p →
      findProduct (restoreLine db it) it.product =
        some { p with stock := some (jsNum p.stock + it.quantity) }) ∧
    (∀ (o : Order) (db : List Product) (st : String) (o' : Order) (db' : List Product),
      adminUpdateOrderStatus o db st = .ok (o', db') → db' = db) := by
  refine ⟨?_, ?_, ?_⟩
  · intro o db o' db' h
    unfold cancelOrder at h
    split at h
    · simp only [Except.ok.injEq, Prod.mk.injEq] at h
      obtain ⟨h1, h2⟩ := h
      subst h1
      subst h2
      exact ⟨rfl, rfl, rfl⟩
    · exact absurd h (by simp)
  · intro db it p hv hfind
    unfold restoreLine
    rw [hfind, hv]
    exact findProduct_saveProduct db it.product p _ hfind rfl
  · intro o db st o' db' h
    unfold adminUpdateOrderStatus at h
    split at h
    · exact absurd h (by simp)
    · dsimp only at h
      split at h
      · exact absurd h (by simp)
      · simp only [Except.ok.injEq, Prod.mk.injEq] at h
        exact h.2.symm

/-- Witness for C1: cancelling the sample PAYMENT_PENDING order restores the
base stock of product 1 from 3 to 5 and yields status CANCELLED. -/
theorem c1_witness :
    cancelOrder sOrder sDb = .ok ({ sOrder with status := "CANCELLED" }, [⟨1, "Rice", 50, some 5, []⟩]) ∧
    (({ sOrder with status := "CANCELLED" } : Order).status = "CANCELLED" ∧
     ({ sOrder with status := "CANCELLED" } : Order).items = sOrder.items ∧
     ([⟨1, "Rice", 50, some 5, []⟩] : List Product) = sOrder.items.foldl restoreLine sDb) :=
  ⟨by decide, c1_cancellation_stock_release.1 sOrder sDb _ _ (by decide)⟩

/-- An order in PAID state with one base-product line of quantity 2. -/
def c1Order : Order :=
  ⟨9, "ORD-9", [⟨1, none, "", "Rice", 50, 2, 100⟩], 100, "razorpay", ⟨"N", "S"⟩,
   "paid", "PAID", none, none, none, false⟩

/-- Counterexample to claim C1 as stated: the admin status update persists
CANCELLED but leaves the product collection untouched — the line stock stays
at 3 instead of being incremented to 3 + 2. -/
theorem c1_admin_cancel_no_restore_cex :
    adminUpdateOrderStatus c1Order sDb "CANCELLED" =
      .ok ({ c1Order with status := "CANCELLED" }, sDb) ∧
    c1Order.items = [⟨1, none, "", "Rice", 50, 2, 100⟩] ∧
    baseStockOf sDb 1 = some (some 3) ∧
    some (some ((3 : Int) + 2)) ≠ baseStockOf sDb 1 :=
  ⟨by decide, by decide, by decide, by decide⟩

/-- The C2 failing request: one line of subtotal 300, distance 7. -/
def c2Req : CreateOrderReq := ⟨[⟨some 1, none, 2⟩], 0, "cod", some ⟨"N", "S"⟩, 7, none⟩

/-- The product collection for the C2 failing request. -/
def c2Db : List Product := [⟨1, "Atta", 150, some 5, []⟩]

/-- Settings for the C2 failing request: threshold 500, free distance 5,
per-km rate 10, no slabs — the computed delivery charge is 7 × 10 = 70. -/
def c2Settings : Settings := ⟨500, 5, 10, []⟩

/-- The sample product collection before the sample order is created. -/
def sDb0 : List Product := [⟨1, "Rice", 50, some 5, []⟩]

/-- Claim C2 (code bug): the route computes a delivery charge of 70, folds
it into totalAmount = 370 and passes a `deliveryCharge` field to the Order
constructor, but `orderSchema` declares no such path, so Mongoose strict
mode drops it at commit: the committed document holds totalAmount 370
against line subtotals summing to 300 and carries no deliveryCharge field —
for a nonzero charge the committed state cannot satisfy
totalAmount = Σ subtotal + order.deliveryCharge. -/
theorem c2_delivery_charge_not_persisted :
    computeDeliveryCharge 300 7 (some c2Settings) none = 70 ∧
    createOrder 9 c2Req c2Db (some c2Settings) "ORD-D" =
      .ok ⟨9, "ORD-D", [⟨1, none, "", "Atta", 150, 2, 300⟩], 370, "cod", ⟨"N", "S"⟩,
           "pending", "CREATED", none, none, none, false⟩
        [⟨1, "Atta", 150, some 3, []⟩] ∧
    sumSubtotals [⟨1, none, "", "Atta", 150, 2, 300⟩] = 300 ∧
    (370 : Int) ≠ 300 :=
  ⟨by decide, by decide, by decide, by decide⟩

/-- Claim C3: when createOrder fails the availability check on some line k,
the stock decrements of lines 1..k-1 stay applied — the collection returned
with the failure is exactly the one left by the successful prefix — and no
order record is created. -/
theorem c3_partial_decrement_no_rollback (uid : Nat) (req : CreateOrderReq) (db : List Product)
    (settings : Option Settings) (num : String) (e : LineErr) (db' : List Product)
    (h : createOrder uid req db settings num = .lineFailure e db') :
    (∃ (k : Nat) (hk : k < req.items.length) (t' : Int) (acc' : List OrderItem),
      processLines (req.items.take k) db 0 [] = .ok t' acc' db' ∧
      processLine db' (req.items.get ⟨k, hk⟩) = .error e) ∧
    (∀ (o : Order) (db2 : List Product), createOrder uid req db settings num ≠ .ok o db2) := by
  have herr : processLines req.items db 0 [] = .err e db' := by
    unfold createOrder at h
    by_cases h1 : req.items.isEmpty
    · rw [if_pos h1] at h
      exact absurd h (by simp)
    · rw [if_neg h1] at h
      by_cases h2 : (req.paymentMethod == "cod" || req.paymentMethod == "razorpay") = false
      · rw [if_pos h2] at h
        exact absurd h (by simp)
      · rw [if_neg h2] at h
        cases haddr : req.shippingAddress with
        | none =>
          rw [haddr] at h
          exact absurd h (by simp)
        | some addr =>
          rw [haddr] at h
          dsimp only at h
          by_cases h3 : addr.name = "" ∨ addr.street = ""
          · rw [if_pos h3] at h
            exact absurd h (by simp)
          · rw [if_neg h3] at h
            cases hpl : processLines req.items db 0 [] with
            | err e0 db2 =>
              rw [hpl] at h
              simp only [CreateOrderResult.lineFailure.injEq] at h
              rw [h.1, h.2]
            | ok t outItems db2 =>
              rw [hpl] at h
              exact absurd h (by simp)
  refine ⟨processLines_err_spec req.items db 0 [] e db' herr, ?_⟩
  intro o db2
  rw [h]
  simp

/-- The request and stock of the C3 witness: line 1 fits (5 ≥ 3), line 2
does not (1 < 2). -/
def c3Req : CreateOrderReq :=
  ⟨[⟨some 1, none, 3⟩, ⟨some 2, none, 2⟩], 0, "cod", some ⟨"N", "S"⟩, 0, none⟩

/-- The product collection before the failing C3 request. -/
def c3Db : List Product := [⟨1, "A", 10, some 5, []⟩, ⟨2, "B", 20, some 1, []⟩]

/-- The collection after the failing C3 request: line 1 stays decremented. -/
def c3DbAfter : List Product := [⟨1, "A", 10, some 2, []⟩, ⟨2, "B", 20, some 1, []⟩]

/-- Witness for C3: the concrete two-line request fails on line 2 and leaves
the line-1 decrement (5 → 2) applied, with no order created. -/
theorem c3_witness :
    createOrder 9 c3Req c3Db none "ORD-1" = .lineFailure (.insufficientStock "B" "") c3DbAfter ∧
    ((∃ (k : Nat) (hk : k < c3Req.items.length) (t' : Int) (acc' : List OrderItem),
       processLines (c3Req.items.take k) c3Db 0 [] = .ok t' acc' c3DbAfter ∧
       processLine c3DbAfter (c3Req.items.get ⟨k, hk⟩) = .error (.insufficientStock "B" "")) ∧
     (∀ (o : Order) (db2 : List Product), createOrder 9 c3Req c3Db none "ORD-1" ≠ .ok o db2)) :=
  ⟨by decide, c3_partial_decrement_no_rollback 9 c3Req c3Db none "ORD-1" _ _ (by decide)⟩

/-- Claim C6: re-initiating a gateway payment on a CANCELLED order re-runs
the per-line reservation as a fresh hold: on success the collection carries
the fresh decrements and the order moves to PAYMENT_PENDING; if any line
lacks stock the request fails with the order document untouched (the stored
order is the unchanged input, still CANCELLED). A base-product line with
stock s and quantity q fails iff s < q. -/
theorem c6_cancelled_repayment_rereserves :
    (∀ (o : Order) (db : List Product) (rpid : String) (msg : String) (db' : List Product),
      o.paymentMethod = "razorpay" → o.status = "CANCELLED" →
      reDeductLines o.items db = .error (msg, db') →
      razorpayOrder o db rpid = .badRequest msg o db' ∧ o.status = "CANCELLED") ∧
    (∀ (o : Order) (db : List Product) (rpid : String) (db' : List Product),
      o.paymentMethod = "razorpay" → o.status = "CANCELLED" →
      reDeductLines o.items db = .ok db' →
      razorpayOrder o db rpid =
        .ok { o with paymentGatewayOrderId := some rpid,
                     status := "PAYMENT_PENDING", paymentStatus := "pending" } db') ∧
    (∀ (db : List Product) (it : OrderItem) (p : Product) (s : Int),
      it.variantId = none → findProduct db it.product = some p → p.stock = some s →
      (s < it.quantity → reDeductLine db it = .error ("Insufficient stock for " ++ p.name, db)) ∧
      (¬(s < it.quantity) →
        reDeductLine db it = .ok (saveProduct db { p with stock := some (s - it.quantity) }))) := by
  refine ⟨?_, ?_, ?_⟩
  · intro o db rpid msg db' hm hst herr
    refine ⟨?_, hst⟩
    simp [razorpayOrder, hm, hst, herr]
  · intro o db rpid db' hm hst hok
    simp [razorpayOrder, hm, hst, hok]
  · intro db it p s hv hfind hs
    constructor
    · intro hlt
      unfold reDeductLine
      rw [hfind, hv]
      dsimp only
      rw [hs]
      dsimp only
      rw [if_pos hlt]
    · intro hge
      unfold reDeductLine
      rw [hfind, hv]
      dsimp only
      rw [hs]
      dsimp only
      rw [if_neg hge]

/-- The sample order in CANCELLED state. -/
def sCancelled : Order := { sOrder with status := "CANCELLED" }

/-- A collection where product 1 has only 1 unit left. -/
def sDb1 : List Product := [⟨1, "Rice", 50, some 1, []⟩]

/-- Witness for C6: re-payment of the cancelled sample order against a
collection holding a single unit fails and leaves the order CANCELLED. -/
theorem c6_witness :
    (sCancelled.paymentMethod = "razorpay" ∧ sCancelled.status = "CANCELLED" ∧
     reDeductLines sCancelled.items sDb1 = .error ("Insufficient stock for Rice", sDb1)) ∧
    (razorpayOrder sCancelled sDb1 "rp_1" = .badRequest "Insufficient stock for Rice" sCancelled sDb1 ∧
     sCancelled.status = "CANCELLED") :=
  ⟨⟨by decide, by decide, by decide⟩,
   c6_cancelled_repayment_rereserves.1 sCancelled sDb1 "rp_1" "Insufficient stock for Rice" sDb1
     (by decide) (by decide) (by decide)⟩

/-- A product with base stock 0 and an active variant with null stock. -/
def c7Db : List Product := [⟨1, "Milk", 30, some 0, [⟨7, "1L", 35, none, true⟩]⟩]

/-- The same product with base stock 5. -/
def c7Db5 : List Product := [⟨1, "Milk", 30, some 5, [⟨7, "1L", 35, none, true⟩]⟩]

/-- Counterexample to claim C7 as stated: a line for an active variant whose
tracked stock is null is not unconstrained — the cart-add and order-creation
availability checks fail against the base stock 0, and when the base stock
suffices, order creation decrements the base product counter (5 → 4). -/
theorem c7_null_variant_not_unlimited_cex :
    cartAdd c7Db ⟨[], 0⟩ 1 1 (some 7) 0 = .insufficient "Insufficient stock available" ∧
    processLine c7Db ⟨some 1, some 7, 1⟩ = .error (.insufficientStock "Milk" "1L") ∧
    processLine c7Db5 ⟨some 1, some 7, 1⟩ =
      .ok (35, ⟨1, some 7, "1L", "Milk", 35, 1, 35⟩,
           [⟨1, "Milk", 30, some 4, [⟨7, "1L", 35, none, true⟩]⟩]) :=
  ⟨by decide, by decide, by decide⟩

/-- Claim C7 (amended): a resolved variant whose tracked stock is null falls
back to the base product counter — availability reads Number(product.stock)
and order creation decrements the base counter — while release at
cancellation and re-reservation at re-payment skip such a line (the product
document is saved unchanged). -/
theorem c7_null_variant_falls_back :
    (∀ (p : Product) (v : Variant) (pr : Int) (lb : String),
      v.stock = none →
      availableStock p ⟨some v, pr, lb⟩ = jsNum p.stock ∧
      ∀ q : Int, decrementForLine p ⟨some v, pr, lb⟩ q = { p with stock := some (jsNum p.stock - q) }) ∧
    (∀ (db : List Product) (it : OrderItem) (p : Product) (vid : Nat) (v : Variant),
      it.variantId = some vid → findProduct db it.product = some p →
      p.variants.find? (fun w => w.vid == vid) = some v → v.stock = none →
      restoreLine db it = saveProduct db p ∧ reDeductLine db it = .ok (saveProduct db p)) := by
  constructor
  · intro p v pr lb hv
    constructor
    · unfold availableStock
      dsimp only
      rw [hv]
    · intro q
      unfold decrementForLine
      dsimp only
      rw [hv]
  · intro db it p vid v hvid hfind hfv hv
    constructor
    · unfold restoreLine
      rw [hfind, hvid]
      dsimp only
      rw [hfv]
      dsimp only
      rw [hv]
    · unfold reDeductLine
      rw [hfind, hvid]
      dsimp only
      rw [hfv]
      dsimp only
      rw [hv]

/-- Witness for C7: the null-stock 1L variant of the sample Milk product. -/
theorem c7_witness :
    ((⟨7, "1L", 35, none, true⟩ : Variant).stock = none) ∧
    (availableStock ⟨1, "Milk", 30, some 5, [⟨7, "1L", 35, none, true⟩]⟩
        ⟨some ⟨7, "1L", 35, none, true⟩, 35, "1L"⟩ =
      jsNum (⟨1, "Milk", 30, some 5, [⟨7, "1L", 35, none, true⟩]⟩ : Product).stock ∧
     ∀ q : Int, decrementForLine ⟨1, "Milk", 30, some 5, [⟨7, "1L", 35, none, true⟩]⟩
        ⟨some ⟨7, "1L", 35, none, true⟩, 35, "1L"⟩ q =
       { (⟨1, "Milk", 30, some 5, [⟨7, "1L", 35, none, true⟩]⟩ : Product) with
         stock := some (jsNum (⟨1, "Milk", 30, some 5, [⟨7, "1L", 35, none, true⟩]⟩ : Product).stock - q) }) :=
  ⟨rfl, c7_null_variant_falls_back.1 ⟨1, "Milk", 30, some 5, [⟨7, "1L", 35, none, true⟩]⟩
    ⟨7, "1L", 35, none, true⟩ 35 "1L" rfl⟩

/-- Claim C8 (amended): for a base-product line, reserving quantity q moves
the counter from s to s − q, releasing it restores s, and re-reserving
decrements it again — the final value is s − q, the value left by the first
reservation, not the original s; reserve-then-release alone restores the
original value. -/
theorem c8_reserve_release_rereserve (db : List Product) (pid : Nat) (p : Product) (s q : Int)
    (hfind : findProduct db pid = some p) (hs : p.stock = some s) (hq : ¬(s < q)) :
    ∃ (oitem : OrderItem) (db1 db3 : List Product),
      processLine db ⟨some pid, none, q⟩ = .ok (p.price * q, oitem, db1) ∧
      baseStockOf db1 pid = some (some (s - q)) ∧
      baseStockOf (restoreLine db1 oitem) pid = some (some s) ∧
      reDeductLine (restoreLine db1 oitem) oitem = .ok db3 ∧
      baseStockOf db3 pid = some (some (s - q)) := by
  obtain ⟨ppid, pname, pprice, pstock, pvars⟩ := p
  dsimp only at hs hfind ⊢
  subst hs
  have hpid : ppid = pid := by
    have hfind0 : List.find? (fun r : Product => r.pid == pid) db =
        some ⟨ppid, pname, pprice, some s, pvars⟩ := hfind
    have h0 := List.find?_some hfind0
    simpa using h0
  subst hpid
  have hstep1 : processLine db ⟨some ppid, none, q⟩ =
      .ok (pprice * q, ⟨ppid, none, "", pname, pprice, q, pprice * q⟩,
           saveProduct db ⟨ppid, pname, pprice, some (s - q), pvars⟩) := by
    simp only [processLine, hfind, getVariantInfo, availableStock, decrementForLine, jsNum]
    rw [if_neg hq]
    rfl
  have hfind1 : findProduct (saveProduct db ⟨ppid, pname, pprice, some (s - q), pvars⟩) ppid =
      some ⟨ppid, pname, pprice, some (s - q), pvars⟩ :=
    findProduct_saveProduct db ppid _ _ hfind rfl
  have hb1 : baseStockOf (saveProduct db ⟨ppid, pname, pprice, some (s - q), pvars⟩) ppid =
      some (some (s - q)) := by
    unfold baseStockOf
    rw [hfind1]
    rfl
  have hstep2 : restoreLine (saveProduct db ⟨ppid, pname, pprice, some (s - q), pvars⟩)
      ⟨ppid, none, "", pname, pprice, q, pprice * q⟩ =
      saveProduct (saveProduct db ⟨ppid, pname, pprice, some (s - q), pvars⟩)
        ⟨ppid, pname, pprice, some (s - q + q), pvars⟩ := by
    simp only [restoreLine, hfind1, jsNum]
  have hfind2 : findProduct (saveProduct (saveProduct db ⟨ppid, pname, pprice, some (s - q), pvars⟩)
        ⟨ppid, pname, pprice, some (s - q + q), pvars⟩) ppid =
      some ⟨ppid, pname, pprice, some (s - q + q), pvars⟩ :=
    findProduct_saveProduct _ ppid _ _ hfind1 rfl
  have hb2 : baseStockOf (saveProduct (saveProduct db ⟨ppid, pname, pprice, some (s - q), pvars⟩)
        ⟨ppid, pname, pprice, some (s - q + q), pvars⟩) ppid = some (some s) := by
    unfold baseStockOf
    rw [hfind2, Int.sub_add_cancel]
    rfl
  have hstep3 : reDeductLine (saveProduct (saveProduct db ⟨ppid, pname, pprice, some (s - q), pvars⟩)
        ⟨ppid, pname, pprice, some (s - q + q), pvars⟩)
      ⟨ppid, none, "", pname, pprice, q, pprice * q⟩ =
      .ok (saveProduct (saveProduct (saveProduct db ⟨ppid, pname, pprice, some (s - q), pvars⟩)
        ⟨ppid, pname, pprice, some (s - q + q), pvars⟩)
        ⟨ppid, pname, pprice, some (s - q + q - q), pvars⟩) := by
    simp only [reDeductLine, hfind2]
    rw [Int.sub_add_cancel, if_neg hq]
  have hfind3 : findProduct (saveProduct (saveProduct (saveProduct db
        ⟨ppid, pname, pprice, some (s - q), pvars⟩) ⟨ppid, pname, pprice, some (s - q + q), pvars⟩)
        ⟨ppid, pname, pprice, some (s - q + q - q), pvars⟩) ppid =
      some ⟨ppid, pname, pprice, some (s - q + q - q), pvars⟩ :=
    findProduct_saveProduct _ ppid _ _ hfind2 rfl
  have hb3 : baseStockOf (saveProduct (saveProduct (saveProduct db
        ⟨ppid, pname, pprice, some (s - q), pvars⟩) ⟨ppid, pname, pprice, some (s - q + q), pvars⟩)
        ⟨ppid, pname, pprice, some (s - q + q - q), pvars⟩) ppid = some (some (s - q)) := by
    unfold baseStockOf
    rw [hfind3, Int.sub_add_cancel]
    rfl
  refine ⟨⟨ppid, none, "", pname, pprice, q, pprice * q⟩,
          saveProduct db ⟨ppid, pname, pprice, some (s - q), pvars⟩, _, hstep1, hb1, ?_, ?_, hb3⟩
  · rw [hstep2]
    exact hb2
  · rw [hstep2]
    exact hstep3

/-- Witness for C8: the sample Rice product with stock 5 and quantity 2
(5 → 3 → 5 → 3). -/
theorem c8_witness :
    (findProduct sDb0 1 = some ⟨1, "Rice", 50, some 5, []⟩ ∧
     (⟨1, "Rice", 50, some 5, []⟩ : Product).stock = some 5 ∧ ¬((5 : Int) < 2)) ∧
    (∃ (oitem : OrderItem) (db1 db3 : List Product),
      processLine sDb0 ⟨some 1, none, 2⟩ =
        .ok ((⟨1, "Rice", 50, some 5, []⟩ : Product).price * 2, oitem, db1) ∧
      baseStockOf db1 1 = some (some ((5 : Int) - 2)) ∧
      baseStockOf (restoreLine db1 oitem) 1 = some (some (5 : Int)) ∧
      reDeductLine (restoreLine db1 oitem) oitem = .ok db3 ∧
      baseStockOf db3 1 = some (some ((5 : Int) - 2))) :=
  ⟨⟨by decide, by decide, by decide⟩,
   c8_reserve_release_rereserve sDb0 1 ⟨1, "Rice", 50, some 5, []⟩ 5 2
     (by decide) (by decide) (by decide)⟩

/-- Counterexample to claim C8 as stated: reserve (5 → 3), release (3 → 5),
re-reserve (5 → 3) leaves the counter at 3, not restored to the original 5. -/
theorem c8_round_trip_cex :
    processLine sDb0 ⟨some 1, none, 2⟩ = .ok (100, ⟨1, none, "", "Rice", 50, 2, 100⟩, sDb) ∧
    restoreLine sDb ⟨1, none, "", "Rice", 50, 2, 100⟩ = sDb0 ∧
    reDeductLine sDb0 ⟨1, none, "", "Rice", 50, 2, 100⟩ = .ok sDb ∧
    baseStockOf sDb 1 ≠ baseStockOf sDb0 1 :=
  ⟨by decide, by decide, by decide, by decide⟩

/-- Claim C9 (amended): the update and remove cart mutations are retried on
version conflict within a budget of 3 attempts in total and then fail
definitively rather than looping, while the add mutation performs a single
attempt — its first version conflict surfaces as a definitive failure. -/
theorem c9_cart_retry_budget :
    (∀ (cart : Cart) (productId : Nat) (qty : Int) (vkey : Option Nat) (c : Cart) (conflicts : Nat),
      cartUpdateLogic cart productId qty vkey = .ok c →
      (conflicts ≤ 2 → cartUpdateLoop cart productId qty vkey 3 conflicts = .ok c) ∧
      (3 ≤ conflicts → cartUpdateLoop cart productId qty vkey 3 conflicts = .saveConflict)) ∧
    (∀ (cart : Cart) (productId : Nat) (vkey : Option Nat) (conflicts : Nat),
      (conflicts ≤ 2 →
        cartRemove cart productId vkey conflicts = .ok (cartRemoveLogic cart productId vkey)) ∧
      (3 ≤ conflicts → cartRemove cart productId vkey conflicts = .saveConflict)) ∧
    (∀ (db : List Product) (cart : Cart) (productId : Nat) (qty : Int) (variantId : Option Nat)
       (c : Cart) (conflicts : Nat),
      cartAddLogic db cart productId qty variantId = .ok c →
      (conflicts = 0 → cartAdd db cart productId qty variantId conflicts = .ok c) ∧
      (1 ≤ conflicts → cartAdd db cart productId qty variantId conflicts = .saveConflict)) := by
  refine ⟨?_, ?_, ?_⟩
  · intro cart productId qty vkey c conflicts hlogic
    constructor
    · intro hc
      interval_cases conflicts
      · simp [cartUpdateLoop, hlogic]
      · simp [cartUpdateLoop, hlogic]
      · simp [cartUpdateLoop, hlogic]
    · intro hc
      obtain ⟨k, rfl⟩ : ∃ k, conflicts = k + 3 := ⟨conflicts - 3, by omega⟩
      simp [cartUpdateLoop, hlogic]
  · intro cart productId vkey conflicts
    constructor
    · intro hc
      interval_cases conflicts
      · simp [cartRemove, cartRemoveLoop]
      · simp [cartRemove, cartRemoveLoop]
      · simp [cartRemove, cartRemoveLoop]
    · intro hc
      obtain ⟨k, rfl⟩ : ∃ k, conflicts = k + 3 := ⟨conflicts - 3, by omega⟩
      simp [cartRemove, cartRemoveLoop]
  · intro db cart productId qty variantId c conflicts hlogic
    constructor
    · intro hc
      subst hc
      simp [cartAdd, hlogic]
    · intro hc
      obtain ⟨k, rfl⟩ : ∃ k, conflicts = k + 1 := ⟨conflicts - 1, by omega⟩
      simp [cartAdd, hlogic]

/-- Witness for C9: a concrete one-line cart updated to quantity 2 under
exactly 2 version conflicts succeeds on the third attempt. -/
theorem c9_witness :
    cartUpdateLogic ⟨[⟨1, none, "", 1, 10⟩], 10⟩ 1 2 none = .ok ⟨[⟨1, none, "", 2, 10⟩], 20⟩ ∧
    ((2 ≤ 2 → cartUpdateLoop ⟨[⟨1, none, "", 1, 10⟩], 10⟩ 1 2 none 3 2 =
        .ok ⟨[⟨1, none, "", 2, 10⟩], 20⟩) ∧
     (3 ≤ 2 → cartUpdateLoop ⟨[⟨1, none, "", 1, 10⟩], 10⟩ 1 2 none 3 2 = .saveConflict)) :=
  ⟨by decide, c9_cart_retry_budget.1 ⟨[⟨1, none, "", 1, 10⟩], 10⟩ 1 2 none
    ⟨[⟨1, none, "", 2, 10⟩], 20⟩ 2 (by decide)⟩

/-- Counterexample to claim C9 as stated: under a single version conflict the
update route succeeds after a retry, but the add route — which the claim
says is retried the same way — fails definitively, even though its mutation
logic had succeeded and a retry would have committed it. -/
theorem c9_add_not_retried_cex :
    cartUpdate [⟨1, "A", 10, some 5, []⟩] ⟨[⟨1, none, "", 1, 10⟩], 10⟩ 1 2 none 1 =
      .ok ⟨[⟨1, none, "", 2, 10⟩], 20⟩ ∧
    cartAdd [⟨1, "A", 10, some 5, []⟩] ⟨[], 0⟩ 1 2 none 1 = .saveConflict ∧
    cartAddLogic [⟨1, "A", 10, some 5, []⟩] ⟨[], 0⟩ 1 2 none = .ok ⟨[⟨1, none, "", 2, 10⟩], 20⟩ :=
  ⟨by decide, by decide, by decide⟩

/-- In a list of slabs sorted by minDistance, the last eligible slab is
eligible and carries the largest minDistance among the eligible ones. -/
theorem getLast_filter_max (dist : Int) (l : List Slab)
    (hsorted : l.Pairwise (fun a b => a.minDistance ≤ b.minDistance)) (b : Slab)
    (hb : (l.filter (fun s => s.minDistance ≤ dist)).getLast? = some b) :
    b ∈ l ∧ b.minDistance ≤ dist ∧
    ∀ u ∈ l, u.minDistance ≤ dist → u.minDistance ≤ b.minDistance := by
  have hbf : b ∈ l.filter (fun s => s.minDistance ≤ dist) := List.mem_of_getLast?_eq_some hb
  have hbl := List.mem_filter.mp hbf
  refine ⟨hbl.1, by simpa using hbl.2, ?_⟩
  intro u hu hud
  have huf : u ∈ l.filter (fun s => s.minDistance ≤ dist) :=
    List.mem_filter.mpr ⟨hu, by simpa using hud⟩
  have hpf : (l.filter (fun s => s.minDistance ≤ dist)).Pairwise
      (fun a b : Slab => a.minDistance ≤ b.minDistance) := hsorted.filter _
  rcases pairwise_rel_getLast _ hpf u huf b hb with h | h
  · rw [h]
  · exact h

/-- The scenario-D slabs (minDistance, charge). -/
def dSlabs : List Slab := [⟨0, 30⟩, ⟨3, 50⟩, ⟨6, 80⟩, ⟨10, 120⟩]

/-- The scenario-D settings: threshold 500, free distance 5, the slabs above. -/
def dSettings : Settings := ⟨500, 5, 0, dSlabs⟩

/-- Claim C4 (amended): when some configured slab qualifies, the computed
charge is that of an eligible slab with the largest minDistance ≤ distance
(scenario D: distance 7 against the 0/3/6/10 slabs gives 80); when slabs
are configured but none qualifies the charge is 0; the distance × perKmRate
fallback applies only when no slabs are configured and no manual charge is
supplied. -/
theorem c4_slab_charge_selection :
    (∀ (dist : Int) (slabs : List Slab), (∃ t ∈ slabs, t.minDistance ≤ dist) →
      ∃ s ∈ slabs, s.minDistance ≤ dist ∧
        (∀ u ∈ slabs, u.minDistance ≤ dist → u.minDistance ≤ s.minDistance) ∧
        calculateDynamicSlabCharge dist slabs = s.charge) ∧
    computeDeliveryCharge 300 7 (some dSettings) none = 80 ∧
    (∀ (total dist : Int) (st : Settings), st.deliverySlabs = [] →
      total < st.freeDeliveryThreshold → st.freeDistanceLimit < dist →
      computeDeliveryCharge total dist (some st) none = dist * st.deliveryChargePerKm) ∧
    (∀ (dist : Int) (slabs : List Slab), slabs ≠ [] →
      (∀ t ∈ slabs, dist < t.minDistance) → calculateDynamicSlabCharge dist slabs = 0) := by
  refine ⟨?_, ?_, ?_, ?_⟩
  · intro dist slabs hex
    obtain ⟨t, ht, htd⟩ := hex
    have hne : slabs.isEmpty = false := by
      cases slabs
      · simp at ht
      · rfl
    have hsorted0 : (slabs.mergeSort (fun a b : Slab => a.minDistance ≤ b.minDistance)).Pairwise
        (fun a b : Slab => a.minDistance ≤ b.minDistance) := by
      refine (List.sorted_mergeSort ?_ ?_ slabs).imp ?_
      · intro a b c hab hbc
        simp only [decide_eq_true_eq] at hab hbc ⊢
        omega
      · intro a b
        simp only [Bool.or_eq_true, decide_eq_true_eq]
        omega
      · intro a b h
        simpa using h
    cases hlast : ((slabs.mergeSort (fun a b : Slab => a.minDistance ≤ b.minDistance)).filter
        (fun s => s.minDistance ≤ dist)).getLast? with
    | none =>
      exfalso
      rw [List.getLast?_eq_none_iff] at hlast
      have htmem : t ∈ (slabs.mergeSort (fun a b : Slab => a.minDistance ≤ b.minDistance)).filter
          (fun s => s.minDistance ≤ dist) :=
        List.mem_filter.mpr ⟨List.mem_mergeSort.mpr ht, by simpa using htd⟩
      rw [hlast] at htmem
      simp at htmem
    | some b =>
      have hmax := getLast_filter_max dist _ hsorted0 b hlast
      refine ⟨b, List.mem_mergeSort.mp hmax.1, hmax.2.1, ?_, ?_⟩
      · intro u hu hud
        exact hmax.2.2 u (List.mem_mergeSort.mpr hu) hud
      · unfold calculateDynamicSlabCharge
        rw [hne]
        dsimp only
        rw [hlast]
        rfl
  · unfold computeDeliveryCharge
    dsimp only [dSettings]
    rw [if_pos (show (300 : Int) < 500 by decide)]
    rw [if_neg (show ¬((7 : Int) ≤ 5) by decide)]
    rw [if_pos (show dSlabs.isEmpty = false from rfl)]
    unfold calculateDynamicSlabCharge dSlabs
    rw [if_neg (show ¬(([⟨0, 30⟩, ⟨3, 50⟩, ⟨6, 80⟩, ⟨10, 120⟩] : List Slab).isEmpty = true) by decide)]
    dsimp only
    rw [List.mergeSort_of_sorted (by decide)]
    decide
  · intro total dist st hslabs hthr hdist
    unfold computeDeliveryCharge
    dsimp only
    rw [if_pos hthr]
    rw [if_neg (show ¬(dist ≤ st.freeDistanceLimit) by omega)]
    rw [hslabs]
    rw [if_neg (show ¬(([] : List Slab).isEmpty = false) by decide)]
  · intro dist slabs hne hall
    have hne' : slabs.isEmpty = false := by
      cases slabs
      · exact absurd rfl hne
      · rfl
    unfold calculateDynamicSlabCharge
    rw [hne']
    dsimp only
    have hfil : (slabs.mergeSort (fun a b : Slab => a.minDistance ≤ b.minDistance)).filter
        (fun s => s.minDistance ≤ dist) = [] := by
      rw [List.filter_eq_nil_iff]
      intro a ha
      have hamem : a ∈ slabs := List.mem_mergeSort.mp ha
      have := hall a hamem
      simp
      omega
    rw [hfil]
    rfl

/-- Witness for C4: the scenario-D slabs at distance 7, where slab
(6, 80) is eligible with the largest minDistance. -/
theorem c4_witness :
    (∃ t ∈ dSlabs, t.minDistance ≤ (7 : Int)) ∧
    (∃ s ∈ dSlabs, s.minDistance ≤ (7 : Int) ∧
      (∀ u ∈ dSlabs, u.minDistance ≤ (7 : Int) → u.minDistance ≤ s.minDistance) ∧
      calculateDynamicSlabCharge 7 dSlabs = s.charge) :=
  ⟨⟨⟨0, 30⟩, by decide, by decide⟩,
   c4_slab_charge_selection.1 7 dSlabs ⟨⟨0, 30⟩, by decide, by decide⟩⟩

/-- Settings with a single slab at minDistance 5, per-km rate 10, free
distance 1, free-delivery threshold 100. -/
def c4Settings : Settings := ⟨100, 1, 10, [⟨5, 50⟩]⟩

/-- Counterexample to claim C4 as stated: subtotal 50 is below the
threshold, distance 2 exceeds the free limit, the configured slab does not
qualify (5 > 2) and no manual charge is supplied — yet the computed charge
is 0, not distance × perKmRate = 20. -/
theorem c4_perkm_fallback_cex :
    computeDeliveryCharge 50 2 (some c4Settings) none = 0 ∧ (0 : Int) ≠ 2 * 10 := by
  constructor
  · unfold computeDeliveryCharge
    dsimp only [c4Settings]
    rw [if_pos (show (50 : Int) < 100 by decide)]
    rw [if_neg (show ¬((2 : Int) ≤ 1) by decide)]
    rw [if_pos (show ([⟨5, 50⟩] : List Slab).isEmpty = false from rfl)]
    unfold calculateDynamicSlabCharge
    rw [if_neg (show ¬(([⟨5, 50⟩] : List Slab).isEmpty = true) by decide)]
    dsimp only
    rw [List.mergeSort_of_sorted (by decide)]
    decide
  · decide

end NRDS
